import Mathlib

/-!
Verification development for the ops-support assistant's core retrieval,
routing, classification and answer-assembly layer.

The Python source is shallowly embedded:

* Python dictionaries become association lists with string keys;
* the vector-index collaborator (`retriever.invoke`) becomes an explicit
  parameter `search : SearchFn` receiving the `RetrieverSpec` the code
  builds (search type, k, score threshold, metadata filter), so the
  routing layer's control flow can be proved over every collaborator;
* the two language-model collaborators (intent classification and answer
  generation) become function parameters: `classify_intent` receives the
  raw text returned by the classification collaborator, and
  `generate_answer` receives both collaborators;
* Python truthiness of optional strings, lists and dicts is modelled by
  explicit emptiness tests, and `top_k or RETRIEVER_TOP_K` by `pyIntOr`,
  which maps both `None` and `0` to the default.
-/

namespace Ops

/-- A metadata value as the Python code can observe it: a string, or the
Python `None` object stored under the key (`str(None) = "None"`). -/
inductive MetaValue where
  | str : String → MetaValue
  | pynone : MetaValue
deriving DecidableEq

/-- Python `str(v)` on a metadata value. -/
def MetaValue.pyStr : MetaValue → String
  | .str s => s
  | .pynone => "None"

/-- Python truthiness test `not v` (negated): `None` and `""` are falsy. -/
def MetaValue.pyFalsy : MetaValue → Bool
  | .str s => s == ""
  | .pynone => true

/-- A retrieved document chunk: page content plus a metadata mapping,
embedded as an association list (a Python dict read with `.get`). -/
structure Document where
  page_content : String
  metadata : List (String × MetaValue)
deriving DecidableEq

/-- Python `dict.get(key)`: the value under the first matching key, if any. -/
def dictGet (md : List (String × MetaValue)) (key : String) : Option MetaValue :=
  (md.find? (fun p => p.1 == key)).map (fun p => p.2)

/-- Python `dict.get(key, default)`. -/
def dictGetD (md : List (String × MetaValue)) (key : String) (dflt : MetaValue) : MetaValue :=
  (dictGet md key).getD dflt

/-- A value in a metadata filter dict: a plain string constraint, the
range constraint `\x7b"$lte": n\x7d`, or an explicit null (which
`build_metadata_filter` never emits). -/
inductive FilterValue where
  | str : String → FilterValue
  | lte : Int → FilterValue
  | null : FilterValue
deriving DecidableEq

/-- `MetadataFilter` — the filter dict handed to the retrieval collaborator,
as an association list in insertion order. -/
abbrev MetadataFilter := List (String × FilterValue)

/-- Lookup of a key in a metadata filter dict. -/
def filterGet (flt : MetadataFilter) (key : String) : Option FilterValue :=
  (flt.find? (fun p => p.1 == key)).map (fun p => p.2)

/-- `retrieval/filters.py` `build_metadata_filter`: starts from an empty
dict; inserts `source_type` when that argument is truthy, `service` when
truthy and not the literal `"unknown"`, and `priority_order` as an `$lte`
range whenever `max_priority` is not `None`. -/
def build_metadata_filter (source_type : Option String) (service : Option String)
    (max_priority : Option Int) : MetadataFilter :=
  let flt : MetadataFilter := []
  let flt := match source_type with
    | some s => if s = "" then flt else flt ++ [("source_type", FilterValue.str s)]
    | none => flt
  let flt := match service with
    | some s => if s = "" ∨ s = "unknown" then flt else flt ++ [("service", FilterValue.str s)]
    | none => flt
  let flt := match max_priority with
    | some n => flt ++ [("priority_order", FilterValue.lte n)]
    | none => flt
  flt

/-- The search request a retriever object carries into `invoke`: the
`search_type` and `search_kwargs` built by `retrieval/retrievers.py`. -/
structure RetrieverSpec where
  search_type : String
  k : Int
  score_threshold : Option ℚ
  filter : Option MetadataFilter
deriving DecidableEq

/-- `retrieval/retrievers.py` `RETRIEVER_TOP_K`. -/
def RETRIEVER_TOP_K : Int := 5

/-- Python `x or d` on an optional int: `None` and `0` are falsy and give
the default; any other value is returned unchanged. -/
def pyIntOr (x : Option Int) (dflt : Int) : Int :=
  match x with
  | some t => if t = 0 then dflt else t
  | none => dflt

/-- `retrieval/retrievers.py` `get_base_retriever`: a
`similarity_score_threshold` retriever with `score_threshold = 0.75`,
`k = top_k or RETRIEVER_TOP_K` and no metadata filter. -/
def get_base_retriever (top_k : Option Int) : RetrieverSpec :=
  let k := pyIntOr top_k RETRIEVER_TOP_K
  { search_type := "similarity_score_threshold"
    k := k
    score_threshold := some (0.75 : ℚ)
    filter := none }

/-- `retrieval/retrievers.py` `get_filtered_retriever`: a plain
`similarity` retriever with `k = top_k or RETRIEVER_TOP_K`; the `filter`
kwarg is added only when `metadata_filter` is truthy (non-`None` and a
non-empty dict). No score threshold is set. -/
def get_filtered_retriever (metadata_filter : Option MetadataFilter)
    (top_k : Option Int) : RetrieverSpec :=
  let k := pyIntOr top_k RETRIEVER_TOP_K
  let filt : Option MetadataFilter :=
    match metadata_filter with
    | some f => if f = [] then none else some f
    | none => none
  { search_type := "similarity"
    k := k
    score_threshold := none
    filter := filt }

/-- The vector-index collaborator: `retriever.invoke(query)`, i.e. a
function of the query and of the retriever's full search request. -/
abbrev SearchFn := String → RetrieverSpec → List Document

/-- `retrieval/routing.py` `RUNBOOK_TOP_K`. -/
def RUNBOOK_TOP_K : Int := 3

/-- `retrieval/routing.py` `ALERT_TOP_K`. -/
def ALERT_TOP_K : Int := 3

/-- `retrieval/routing.py` `INCIDENT_TOP_K`. -/
def INCIDENT_TOP_K : Int := 3

/-- `retrieval/routing.py` `_retrieve_with_filter`: builds the filtered
retriever and invokes it on the query. -/
def retrieve_with_filter (search : SearchFn) (query : String)
    (metadata_filter : MetadataFilter) (top_k : Option Int) : List Document :=
  search query (get_filtered_retriever (some metadata_filter) top_k)

/-- `retrieval/routing.py` `route_runbook_first`: try runbooks at
`RUNBOOK_TOP_K`; on an empty result try alerts at `ALERT_TOP_K`; on an
empty result return the incident search at `INCIDENT_TOP_K` as-is. -/
def route_runbook_first (search : SearchFn) (query : String)
    (service : Option String) : List Document :=
  let runbook_filter := build_metadata_filter (some "runbook") service none
  let docs := retrieve_with_filter search query runbook_filter (some RUNBOOK_TOP_K)
  if docs ≠ [] then docs
  else
    let alert_filter := build_metadata_filter (some "alert") service none
    let docs := retrieve_with_filter search query alert_filter (some ALERT_TOP_K)
    if docs ≠ [] then docs
    else
      let incident_filter := build_metadata_filter (some "incident") service none
      retrieve_with_filter search query incident_filter (some INCIDENT_TOP_K)

/-- `retrieval/routing.py` `route_query`: dispatch on the intent string;
`runbook_lookup` goes to the cascade, `incident_analysis` and
`log_analysis` to one filtered search each (default top_k), everything
else to the broad service-only search. -/
def route_query (search : SearchFn) (query : String) (intent : String)
    (service : Option String) : List Document :=
  if intent = "runbook_lookup" then
    route_runbook_first search query service
  else if intent = "incident_analysis" then
    retrieve_with_filter search query
      (build_metadata_filter (some "incident") service none) none
  else if intent = "log_analysis" then
    retrieve_with_filter search query
      (build_metadata_filter (some "log") service none) none
  else
    retrieve_with_filter search query
      (build_metadata_filter none service none) none

/-- Python `str.lower()` (ASCII case folding), computed on the character
list so that proofs can evaluate it. -/
def pyLower (s : String) : String :=
  String.mk (s.data.map Char.toLower)

/-- Python `str.strip()` (ASCII whitespace on both ends), computed on the
character list so that proofs can evaluate it. -/
def pyStrip (s : String) : String :=
  String.mk
    (((s.data.dropWhile Char.isWhitespace).reverse.dropWhile Char.isWhitespace).reverse)

/-- `chains/intent_chain.py` — the `allowed` label set. -/
def allowedIntents : List String :=
  ["runbook_lookup", "incident_analysis", "log_analysis",
   "alert_investigation", "ticket_investigation", "general_question"]

/-- `chains/intent_chain.py` `classify_intent`, as a function of the raw
text returned by the classification collaborator: strip, lower-case, and
fall back to `"runbook_lookup"` when the result is outside `allowed`. -/
def classify_intent (llm_output : String) : String :=
  let intent := pyStrip llm_output
  let intent := pyLower intent
  if intent ∈ allowedIntents then intent else "runbook_lookup"

/-- `os.path.basename` for POSIX paths: everything after the last `/`,
computed on the character list so that proofs can evaluate it. -/
def basename (s : String) : String :=
  String.mk (((s.data.splitOn '/').getLast?).getD s.data)

/-- Loop body of `chains/rag_chain.py` `_extract_reference_ids`, per
document metadata (the loop reads only `d.metadata`; the `or \x7b\x7d`
guard is the identity in this model since the metadata mapping is total):
skip a missing or falsy `source`, skip null-like strings, take the
basename of the stripped value, and keep it only when non-empty and not
null-like. -/
def extractRef (md : List (String × MetaValue)) : Option String :=
  match dictGet md "source" with
  | none => none
  | some doc_src =>
    if doc_src.pyFalsy then none
    else if pyLower doc_src.pyStr ∈ (["none", "null", ""] : List String) then none
    else if basename (pyStrip doc_src.pyStr) ≠ ""
        ∧ pyLower (basename (pyStrip doc_src.pyStr)) ∉ (["none", "null"] : List String) then
      some (basename (pyStrip doc_src.pyStr))
    else none

/-- A decision procedure for `≤` on strings that the kernel can evaluate,
through the character-list order (`String.le_iff_toList_le`). -/
def decStrLE (a b : String) : Decidable (a ≤ b) :=
  decidable_of_iff (a.toList ≤ b.toList) String.le_iff_toList_le.symm

/-- `chains/rag_chain.py` `_extract_reference_ids`: collect the kept
filenames into a set (`dedup`) and return `sorted(set)` in ascending
code-point order. -/
def extract_reference_ids (docs : List Document) : List String :=
  @List.insertionSort String (fun a b => a ≤ b) (fun a b => decStrLE a b)
    ((docs.filterMap (fun d => extractRef d.metadata)).dedup)

/-- `chains/rag_chain.py` `MAX_CONTEXT_DOCS`. -/
def MAX_CONTEXT_DOCS : Nat := 6

/-- One document's block in the prompt context: the stripped f-string with
`source_type` and `service` read with default `"unknown"`. -/
def docBlock (d : Document) : String :=
  let source := dictGetD d.metadata "source_type" (MetaValue.str "unknown")
  let service := dictGetD d.metadata "service" (MetaValue.str "unknown")
  pyStrip ("\n                    Source: " ++ source.pyStr
    ++ "\n                    Service: " ++ service.pyStr
    ++ "\n                    Content:\n                    " ++ d.page_content
    ++ "\n                ")

/-- `chains/rag_chain.py` `_build_context`: a fixed sentence on an empty
batch, else the blocks of the first `MAX_CONTEXT_DOCS` documents joined
by the delimiter. -/
def build_context (docs : List Document) : String :=
  if docs = [] then "No relevant documents found."
  else String.intercalate "\n\n---\n\n" ((docs.take MAX_CONTEXT_DOCS).map docBlock)

/-- The literal returned by `generate_answer` on the empty-retrieval
branch of `chains/rag_chain.py`. -/
def SENTINEL_NO_INFO : String :=
  "No relevant information found in runbooks, incidents, alerts, logs, or tickets. Please verify the issue or update the knowledge base."

/-- `chains/rag_chain.py` `generate_answer`, over its three collaborators:
`intent_llm` (raw classification output for the query), `search` (the
vector index), `rag_llm` (the generation model on query, context,
history). Classify, route, extract reference ids, and either return the
sentinel with an empty list on zero documents or the generated text with
the extracted ids. -/
def generate_answer (intent_llm : String → String) (search : SearchFn)
    (rag_llm : String → String → String → String)
    (query : String) (history : String) (service : Option String) :
    String × List String :=
  let intent := classify_intent (intent_llm query)
  let docs := route_query search query intent service
  let reference_ids := extract_reference_ids docs
  if docs = [] then (SENTINEL_NO_INFO, [])
  else
    let context := build_context docs
    (rag_llm query context history, reference_ids)

/-- The search request issued by step 1 of the runbook-first cascade:
runbook filter plus service, top_k `RUNBOOK_TOP_K`. -/
def runbookSpec (service : Option String) : RetrieverSpec :=
  get_filtered_retriever (some (build_metadata_filter (some "runbook") service none))
    (some RUNBOOK_TOP_K)

/-- The search request issued by step 2 of the runbook-first cascade:
alert filter plus service, top_k `ALERT_TOP_K`. -/
def alertSpec (service : Option String) : RetrieverSpec :=
  get_filtered_retriever (some (build_metadata_filter (some "alert") service none))
    (some ALERT_TOP_K)

/-- The search request issued by step 3 of the runbook-first cascade:
incident filter plus service, top_k `INCIDENT_TOP_K`. -/
def incidentSpec (service : Option String) : RetrieverSpec :=
  get_filtered_retriever (some (build_metadata_filter (some "incident") service none))
    (some INCIDENT_TOP_K)

/-- The single search request of the `incident_analysis` branch (default
top_k). -/
def incidentAnalysisSpec (service : Option String) : RetrieverSpec :=
  get_filtered_retriever (some (build_metadata_filter (some "incident") service none)) none

/-- The single search request of the `log_analysis` branch (default
top_k). -/
def logAnalysisSpec (service : Option String) : RetrieverSpec :=
  get_filtered_retriever (some (build_metadata_filter (some "log") service none)) none

/-- The single search request of the broad default branch: service-only
filter, default top_k. -/
def broadSpec (service : Option String) : RetrieverSpec :=
  get_filtered_retriever (some (build_metadata_filter none service none)) none

/-- A vector-index collaborator that finds nothing. -/
def emptySearch : SearchFn := fun _ _ => []

/-- A fixed incident document used in witnesses. -/
def sampleIncidentDoc : Document :=
  { page_content := "INC-101: trading-db connection pool exhausted"
    metadata := [("source", MetaValue.str "incidents/INC-101.txt"),
                 ("source_type", MetaValue.str "incident"),
                 ("service", MetaValue.str "trading-db")] }

/-- A fixed runbook document used in witnesses. -/
def sampleRunbookDoc : Document :=
  { page_content := "1. check disk usage 2. rotate logs"
    metadata := [("source", MetaValue.str "runbooks/disk_spike.txt"),
                 ("source_type", MetaValue.str "runbook"),
                 ("service", MetaValue.str "trading-db")] }

/-- A collaborator that matches only searches whose filter pins
`source_type` to `incident`, with one fixed document. -/
def incidentOnlySearch : SearchFn := fun _ spec =>
  match spec.filter with
  | some flt =>
    if filterGet flt "source_type" = some (FilterValue.str "incident") then
      [sampleIncidentDoc]
    else []
  | none => []

/-- A collaborator that records the request it receives inside the
returned document, to observe which search the router issues. -/
def probeSearch : SearchFn := fun _ spec =>
  [{ page_content := spec.search_type
     metadata :=
       [("has_filter",
         MetaValue.str (match spec.filter with | some _ => "yes" | none => "no")),
        ("has_threshold",
         MetaValue.str (match spec.score_threshold with | some _ => "yes" | none => "no"))] }]

/-- Seven documents with distinct sources — one more than
`MAX_CONTEXT_DOCS`. -/
def sevenDocs : List Document :=
  [⟨"c1", [("source", MetaValue.str "docs/a1.txt")]⟩,
   ⟨"c2", [("source", MetaValue.str "docs/a2.txt")]⟩,
   ⟨"c3", [("source", MetaValue.str "docs/a3.txt")]⟩,
   ⟨"c4", [("source", MetaValue.str "docs/a4.txt")]⟩,
   ⟨"c5", [("source", MetaValue.str "docs/a5.txt")]⟩,
   ⟨"c6", [("source", MetaValue.str "docs/a6.txt")]⟩,
   ⟨"c7", [("source", MetaValue.str "docs/a7.txt")]⟩]

/-! ## Helper lemmas -/

/-- A filter built with a non-empty `source_type` starts with that entry. -/
theorem build_filter_sourceType_cons (st : String) (hst : st ≠ "") (svc : Option String) :
    ∃ rest, build_metadata_filter (some st) svc none
      = ("source_type", FilterValue.str st) :: rest := by
  cases svc with
  | none => exact ⟨[], by simp [build_metadata_filter, hst]⟩
  | some s =>
    by_cases h : s = "" ∨ s = "unknown"
    · exact ⟨[], by simp [build_metadata_filter, hst, h]⟩
    · exact ⟨[("service", FilterValue.str s)], by simp [build_metadata_filter, hst, h]⟩

/-- Looking up `source_type` in a filter built with a non-empty
`source_type` returns that value. -/
theorem build_filter_sourceType_get (st : String) (hst : st ≠ "") (svc : Option String) :
    filterGet (build_metadata_filter (some st) svc none) "source_type"
      = some (FilterValue.str st) := by
  obtain ⟨rest, hr⟩ := build_filter_sourceType_cons st hst svc
  rw [hr]
  simp [filterGet]

/-- A filter built with a non-empty `source_type` is a non-empty dict. -/
theorem build_filter_sourceType_ne_nil (st : String) (hst : st ≠ "") (svc : Option String) :
    build_metadata_filter (some st) svc none ≠ [] := by
  obtain ⟨rest, hr⟩ := build_filter_sourceType_cons st hst svc
  simp [hr]

/-- The filtered retriever keeps a filter built with a non-empty
`source_type` (the dict is truthy). -/
theorem get_filtered_retriever_filter_sourceType (st : String) (hst : st ≠ "")
    (svc : Option String) (tk : Option Int) :
    (get_filtered_retriever (some (build_metadata_filter (some st) svc none)) tk).filter
      = some (build_metadata_filter (some st) svc none) := by
  have h := build_filter_sourceType_ne_nil st hst svc
  simp [get_filtered_retriever, h]

/-- The extracted reference ids are sorted in ascending string order. -/
theorem extract_reference_ids_sorted (docs : List Document) :
    List.Sorted (fun a b : String => a ≤ b) (extract_reference_ids docs) :=
  @List.sorted_insertionSort String (fun a b => a ≤ b) (fun a b => decStrLE a b)
    inferInstance inferInstance _

/-- The underlying permutation between the sorted output and the
de-duplicated input of the extractor. -/
theorem extract_reference_ids_perm_dedup (docs : List Document) :
    List.Perm (extract_reference_ids docs)
      ((docs.filterMap (fun d => extractRef d.metadata)).dedup) :=
  @List.perm_insertionSort String (fun a b => a ≤ b) (fun a b => decStrLE a b) _

/-- The extracted reference ids contain no duplicate. -/
theorem extract_reference_ids_nodup (docs : List Document) :
    (extract_reference_ids docs).Nodup :=
  ((extract_reference_ids_perm_dedup docs).nodup_iff).mpr (List.nodup_dedup _)

/-- Membership in the extracted reference ids, in terms of the per-document
extraction. -/
theorem mem_extract_reference_ids (docs : List Document) (r : String) :
    r ∈ extract_reference_ids docs ↔ ∃ d ∈ docs, extractRef d.metadata = some r := by
  simp [extract_reference_ids, List.mem_insertionSort, List.mem_dedup, List.mem_filterMap]

/-- Two batches yielding the same per-document extractions have equal
reference-id lists (sorted-nodup lists agree on membership). -/
theorem extract_reference_ids_eq_of_mem_iff (A B : List Document)
    (h : ∀ r : String, (∃ d ∈ A, extractRef d.metadata = some r) ↔
      (∃ d ∈ B, extractRef d.metadata = some r)) :
    extract_reference_ids A = extract_reference_ids B := by
  apply List.eq_of_perm_of_sorted ?_ (extract_reference_ids_sorted A)
    (extract_reference_ids_sorted B)
  rw [List.perm_ext_iff_of_nodup (extract_reference_ids_nodup A)
    (extract_reference_ids_nodup B)]
  intro r
  rw [mem_extract_reference_ids, mem_extract_reference_ids]
  exact h r

/-- Characterization of the per-document extraction. -/
theorem extractRef_eq_some_iff (md : List (String × MetaValue)) (r : String) :
    extractRef md = some r ↔
      ∃ v, dictGet md "source" = some v ∧
        v.pyFalsy = false ∧
        pyLower v.pyStr ∉ (["none", "null", ""] : List String) ∧
        r = basename (pyStrip v.pyStr) ∧
        r ≠ "" ∧
        pyLower r ∉ (["none", "null"] : List String) := by
  constructor
  · intro h
    unfold extractRef at h
    rcases hsrc : dictGet md "source" with _ | v
    · rw [hsrc] at h; cases h
    · rw [hsrc] at h
      dsimp only at h
      split_ifs at h with hf hl hg
      all_goals first
        | exact Option.noConfusion h
        | (rw [Option.some.injEq] at h
           subst h
           exact ⟨v, rfl, by simpa using hf, hl, rfl, hg.1, hg.2⟩)
  · rintro ⟨v, hsrc, hf, hl, hr, hne, hnl⟩
    subst hr
    unfold extractRef
    rw [hsrc]
    dsimp only
    rw [if_neg (by simp [hf]), if_neg hl, if_pos ⟨hne, hnl⟩]

/-! ## Claims -/

/-- Claim C5, counterexample: the source value `"runbooks/None"` is not
itself missing, empty, or a case-insensitive `none`/`null`, and its
basename is `"None"`; the claim as stated therefore adds `"None"` to the
result, but the extractor returns the empty list (the code applies a
second null-like guard after taking the basename). -/
theorem refid_nulllike_basename_cex :
    pyLower "runbooks/None" ∉ (["none", "null", ""] : List String) ∧
    (MetaValue.str "runbooks/None").pyFalsy = false ∧
    basename (pyStrip "runbooks/None") = "None" ∧
    extract_reference_ids
      [{ page_content := "",
         metadata := [("source", MetaValue.str "runbooks/None")] }] = [] := by
  refine ⟨by decide, by decide, by decide, by decide⟩

/-- Claim C5 (amended): a string is in the extracted reference ids exactly
when some document's `source` metadata is present, not falsy, not
case-insensitively `none`/`null`/empty, and the string is the basename of
the whitespace-stripped value — with the additional guard that this
basename itself is non-empty and not case-insensitively `none`/`null`.
Documents with missing or null-like `source` are excluded, and the
extractor is total (never raises). -/
theorem refid_membership_amended (docs : List Document) (r : String) :
    r ∈ extract_reference_ids docs ↔
      ∃ d ∈ docs, ∃ v, dictGet d.metadata "source" = some v ∧
        v.pyFalsy = false ∧
        pyLower v.pyStr ∉ (["none", "null", ""] : List String) ∧
        r = basename (pyStrip v.pyStr) ∧
        r ≠ "" ∧
        pyLower r ∉ (["none", "null"] : List String) := by
  rw [mem_extract_reference_ids]
  constructor
  · rintro ⟨d, hd, hext⟩
    exact ⟨d, hd, (extractRef_eq_some_iff d.metadata r).1 hext⟩
  · rintro ⟨d, hd, hv⟩
    exact ⟨d, hd, (extractRef_eq_some_iff d.metadata r).2 hv⟩

/-- Claim C5, witness: a well-formed runbook document contributes the
basename of its `source` path. -/
theorem refid_membership_amended_witness :
    "disk_spike.txt" ∈ extract_reference_ids [sampleRunbookDoc] :=
  (refid_membership_amended [sampleRunbookDoc] "disk_spike.txt").2
    ⟨sampleRunbookDoc, by decide, MetaValue.str "runbooks/disk_spike.txt",
      by decide, by decide, by decide, by decide, by decide, by decide⟩

/-- Claim C2: for every raw string the classification collaborator may
return, the classifier's result is one of the six allowed labels; when
the trimmed lower-cased value is outside the taxonomy the result is
`"runbook_lookup"` and is never the raw unrecognized label. Totality of
`classify_intent` embeds the never-raises guarantee. -/
theorem intent_guardrail_default (s : String) :
    classify_intent s ∈ allowedIntents ∧
    (pyLower (pyStrip s) ∉ allowedIntents →
      classify_intent s = "runbook_lookup" ∧ classify_intent s ≠ s) := by
  constructor
  · show (if pyLower (pyStrip s) ∈ allowedIntents then pyLower (pyStrip s)
        else "runbook_lookup") ∈ allowedIntents
    split_ifs with h
    · exact h
    · decide
  · intro h
    have hval : classify_intent s = "runbook_lookup" := by
      show (if pyLower (pyStrip s) ∈ allowedIntents then pyLower (pyStrip s)
          else "runbook_lookup") = "runbook_lookup"
      rw [if_neg h]
    refine ⟨hval, ?_⟩
    intro heq
    apply h
    rw [heq] at hval
    rw [hval]
    decide

/-- Claim C2, witness: an out-of-taxonomy collaborator reply falls back to
`runbook_lookup` and the raw label is not echoed back. -/
theorem intent_guardrail_default_witness :
    classify_intent "Sounds Like A Database Issue" = "runbook_lookup" ∧
    classify_intent "Sounds Like A Database Issue" ≠ "Sounds Like A Database Issue" :=
  (intent_guardrail_default "Sounds Like A Database Issue").2 (by decide)

/-- Claim C6: the extractor is order-independent (any permutation of the
batch yields the identical result list), its output is sorted and
duplicate-free, it absorbs duplication of the batch, and it depends only
on the documents' metadata — hence never on any language-model output. -/
theorem refid_order_independent (docs docs' : List Document) :
    (List.Perm docs docs' → extract_reference_ids docs = extract_reference_ids docs') ∧
    List.Sorted (fun a b : String => a ≤ b) (extract_reference_ids docs) ∧
    (extract_reference_ids docs).Nodup ∧
    extract_reference_ids (docs ++ docs) = extract_reference_ids docs ∧
    (docs.map Document.metadata = docs'.map Document.metadata →
      extract_reference_ids docs = extract_reference_ids docs') := by
  refine ⟨?_, extract_reference_ids_sorted docs, extract_reference_ids_nodup docs, ?_, ?_⟩
  · intro hp
    apply extract_reference_ids_eq_of_mem_iff
    intro r
    constructor
    · rintro ⟨d, hd, he⟩; exact ⟨d, hp.mem_iff.1 hd, he⟩
    · rintro ⟨d, hd, he⟩; exact ⟨d, hp.mem_iff.2 hd, he⟩
  · apply extract_reference_ids_eq_of_mem_iff
    intro r
    constructor
    · rintro ⟨d, hd, he⟩
      rcases List.mem_append.1 hd with h | h
      · exact ⟨d, h, he⟩
      · exact ⟨d, h, he⟩
    · rintro ⟨d, hd, he⟩
      exact ⟨d, List.mem_append.2 (Or.inl hd), he⟩
  · intro hm
    apply extract_reference_ids_eq_of_mem_iff
    intro r
    constructor
    · rintro ⟨d, hd, he⟩
      have hmem : d.metadata ∈ docs'.map Document.metadata := by
        rw [← hm]; exact List.mem_map_of_mem _ hd
      rcases List.mem_map.1 hmem with ⟨d', hd', hdm⟩
      exact ⟨d', hd', by rw [hdm]; exact he⟩
    · rintro ⟨d, hd, he⟩
      have hmem : d.metadata ∈ docs.map Document.metadata := by
        rw [hm]; exact List.mem_map_of_mem _ hd
      rcases List.mem_map.1 hmem with ⟨d', hd', hdm⟩
      exact ⟨d', hd', by rw [hdm]; exact he⟩

/-- Claim C6, witness: swapping two documents leaves the extracted
reference ids unchanged. -/
theorem refid_order_independent_witness :
    extract_reference_ids [sampleRunbookDoc, sampleIncidentDoc]
      = extract_reference_ids [sampleIncidentDoc, sampleRunbookDoc] :=
  (refid_order_independent [sampleRunbookDoc, sampleIncidentDoc]
    [sampleIncidentDoc, sampleRunbookDoc]).1
    (List.Perm.swap sampleIncidentDoc sampleRunbookDoc [])

/-- Claim C7: the filter builder omits `source_type` when absent or empty,
omits `service` when absent, empty, or the literal `"unknown"`, encodes
`max_priority` as the `$lte` range constraint whenever present, and never
emits a key bound to a null value. As a total function it has no failure
modes. -/
theorem filter_builder_shape (st svc : Option String) (mp : Option Int) :
    filterGet (build_metadata_filter st svc mp) "source_type" =
      (match st with
       | some s => if s = "" then none else some (FilterValue.str s)
       | none => none) ∧
    filterGet (build_metadata_filter st svc mp) "service" =
      (match svc with
       | some s => if s = "" ∨ s = "unknown" then none else some (FilterValue.str s)
       | none => none) ∧
    filterGet (build_metadata_filter st svc mp) "priority_order" =
      (match mp with
       | some n => some (FilterValue.lte n)
       | none => none) ∧
    FilterValue.null ∉ (build_metadata_filter st svc mp).map Prod.snd := by
  rcases st with _ | s <;> rcases svc with _ | t <;> rcases mp with _ | n <;>
    simp only [build_metadata_filter] <;>
    first
      | (split_ifs <;> simp_all [filterGet, List.find?])
      | simp_all [filterGet, List.find?]

/-- Claim C7, witness: concrete filter with `source_type` kept, `unknown`
service dropped, and `max_priority` as a range constraint. -/
theorem filter_builder_shape_witness :
    filterGet (build_metadata_filter (some "runbook") (some "unknown") (some 2)) "source_type"
      = some (FilterValue.str "runbook") ∧
    filterGet (build_metadata_filter (some "runbook") (some "unknown") (some 2)) "service"
      = none ∧
    filterGet (build_metadata_filter (some "runbook") (some "unknown") (some 2)) "priority_order"
      = some (FilterValue.lte 2) :=
  ⟨(filter_builder_shape (some "runbook") (some "unknown") (some 2)).1,
   (filter_builder_shape (some "runbook") (some "unknown") (some 2)).2.1,
   (filter_builder_shape (some "runbook") (some "unknown") (some 2)).2.2.1⟩

/-- Claim C1: for `runbook_lookup`, the router cascades — the runbook
search (source_type `runbook` plus service, k = 3) is returned as soon as
non-empty with nothing merged in; otherwise the alert search (k = 3) is
returned if non-empty; otherwise the incident search result (k = 3) is
returned exactly, even when empty, so the cascade never reaches ticket or
log sources. -/
theorem runbook_first_cascade (search : SearchFn) (query : String) (service : Option String) :
    (search query (runbookSpec service) ≠ [] →
      route_query search query "runbook_lookup" service = search query (runbookSpec service)) ∧
    (search query (runbookSpec service) = [] → search query (alertSpec service) ≠ [] →
      route_query search query "runbook_lookup" service = search query (alertSpec service)) ∧
    (search query (runbookSpec service) = [] → search query (alertSpec service) = [] →
      route_query search query "runbook_lookup" service = search query (incidentSpec service)) ∧
    (runbookSpec service).k = 3 ∧ (alertSpec service).k = 3 ∧ (incidentSpec service).k = 3 ∧
    (runbookSpec service).filter = some (build_metadata_filter (some "runbook") service none) ∧
    (alertSpec service).filter = some (build_metadata_filter (some "alert") service none) ∧
    (incidentSpec service).filter = some (build_metadata_filter (some "incident") service none) ∧
    filterGet (build_metadata_filter (some "runbook") service none) "source_type"
      = some (FilterValue.str "runbook") ∧
    filterGet (build_metadata_filter (some "alert") service none) "source_type"
      = some (FilterValue.str "alert") ∧
    filterGet (build_metadata_filter (some "incident") service none) "source_type"
      = some (FilterValue.str "incident") := by
  have hroute : route_query search query "runbook_lookup" service
      = route_runbook_first search query service := by
    simp [route_query]
  have hcascade : route_runbook_first search query service =
      (if search query (runbookSpec service) ≠ [] then search query (runbookSpec service)
       else if search query (alertSpec service) ≠ [] then search query (alertSpec service)
       else search query (incidentSpec service)) := rfl
  refine ⟨?_, ?_, ?_, rfl, rfl, rfl,
    get_filtered_retriever_filter_sourceType "runbook" (by decide) service (some RUNBOOK_TOP_K),
    get_filtered_retriever_filter_sourceType "alert" (by decide) service (some ALERT_TOP_K),
    get_filtered_retriever_filter_sourceType "incident" (by decide) service (some INCIDENT_TOP_K),
    build_filter_sourceType_get "runbook" (by decide) service,
    build_filter_sourceType_get "alert" (by decide) service,
    build_filter_sourceType_get "incident" (by decide) service⟩
  · intro h
    rw [hroute, hcascade, if_pos h]
  · intro h1 h2
    rw [hroute, hcascade, if_neg (fun hc => hc h1), if_pos h2]
  · intro h1 h2
    rw [hroute, hcascade, if_neg (fun hc => hc h1), if_neg (fun hc => hc h2)]

/-- Claim C1, witness: with a collaborator matching only incident-filtered
searches, the cascade falls through runbooks and alerts and returns the
incident result. -/
theorem runbook_first_cascade_witness :
    route_query incidentOnlySearch "db connection pool exhausted" "runbook_lookup"
      (some "trading-db") = [sampleIncidentDoc] := by
  have h := (runbook_first_cascade incidentOnlySearch "db connection pool exhausted"
    (some "trading-db")).2.2.1 (by decide) (by decide)
  rw [h]
  decide

/-- Claim C3: exactly one branch executes per call — `incident_analysis`
and `log_analysis` each perform their single filtered search, and every
other non-runbook intent (known or unknown) performs the broad
service-only search whose filter carries no `source_type` key. -/
theorem route_query_decision_table (search : SearchFn) (q : String) (svc : Option String) :
    route_query search q "incident_analysis" svc = search q (incidentAnalysisSpec svc) ∧
    route_query search q "log_analysis" svc = search q (logAnalysisSpec svc) ∧
    (∀ intent : String,
      intent ∉ (["runbook_lookup", "incident_analysis", "log_analysis"] : List String) →
        route_query search q intent svc = search q (broadSpec svc)) ∧
    filterGet (build_metadata_filter (some "incident") svc none) "source_type"
      = some (FilterValue.str "incident") ∧
    filterGet (build_metadata_filter (some "log") svc none) "source_type"
      = some (FilterValue.str "log") ∧
    filterGet (build_metadata_filter none svc none) "source_type" = none := by
  refine ⟨?_, ?_, ?_,
    build_filter_sourceType_get "incident" (by decide) svc,
    build_filter_sourceType_get "log" (by decide) svc, ?_⟩
  · simp [route_query, retrieve_with_filter, incidentAnalysisSpec]
  · simp [route_query, retrieve_with_filter, logAnalysisSpec]
  · intro intent h
    have h1 : intent ≠ "runbook_lookup" := by intro e; exact h (by rw [e]; decide)
    have h2 : intent ≠ "incident_analysis" := by intro e; exact h (by rw [e]; decide)
    have h3 : intent ≠ "log_analysis" := by intro e; exact h (by rw [e]; decide)
    unfold route_query
    rw [if_neg h1, if_neg h2, if_neg h3]
    rfl
  · rcases svc with _ | s
    · simp [build_metadata_filter, filterGet]
    · simp only [build_metadata_filter]
      split_ifs <;> simp_all [filterGet, List.find?]

/-- Claim C3, witness: an unknown-to-the-table intent takes the broad
default branch. -/
theorem route_query_decision_table_witness :
    route_query probeSearch "user reported checkout failure" "ticket_investigation" none
      = probeSearch "user reported checkout failure" (broadSpec none) :=
  (route_query_decision_table probeSearch "user reported checkout failure" none).2.2.1
    "ticket_investigation" (by decide)

/-- Claim C4: when routing returns zero documents, `generate_answer`
returns the fixed sentinel with an empty reference list, and its result
does not depend on the generation collaborator (no generation call is
observable). -/
theorem empty_retrieval_sentinel (intent_llm : String → String) (search : SearchFn)
    (rag_llm rag_llm2 : String → String → String → String)
    (q hist : String) (svc : Option String)
    (h : route_query search q (classify_intent (intent_llm q)) svc = []) :
    generate_answer intent_llm search rag_llm q hist svc = (SENTINEL_NO_INFO, []) ∧
    generate_answer intent_llm search rag_llm q hist svc
      = generate_answer intent_llm search rag_llm2 q hist svc := by
  have e : ∀ rl : String → String → String → String,
      generate_answer intent_llm search rl q hist svc = (SENTINEL_NO_INFO, []) := by
    intro rl
    simp only [generate_answer]
    rw [h]
    simp
  exact ⟨e rag_llm, (e rag_llm).trans (e rag_llm2).symm⟩

/-- Claim C4, witness: an un-retrievable query yields the sentinel pair. -/
theorem empty_retrieval_sentinel_witness :
    generate_answer (fun _ => "general_question") emptySearch (fun _ _ _ => "generated")
      "anything at all" "" none = (SENTINEL_NO_INFO, []) :=
  (empty_retrieval_sentinel (fun _ => "general_question") emptySearch (fun _ _ _ => "generated")
    (fun _ _ _ => "other") "anything at all" "" none (by decide)).1

/-- Claim C8, counterexample: the Router's broad default branch with no
service constraint issues a plain `similarity` search with neither a
metadata filter nor a score threshold — so it is an unfiltered search to
which no minimum-score threshold applies, contradicting the claimed mode
assignment for the searches the Router issues. -/
theorem retrieval_modes_router_cex :
    route_query probeSearch "pods restarting" "general_question" none
      = [{ page_content := "similarity",
           metadata := [("has_filter", MetaValue.str "no"),
                        ("has_threshold", MetaValue.str "no")] }] ∧
    (broadSpec none).filter = none ∧
    (broadSpec none).score_threshold = none ∧
    (get_base_retriever none).score_threshold = some (0.75 : ℚ) := by
  refine ⟨by decide, by decide, by decide, rfl⟩

/-- Claim C8 (amended): the thresholded unfiltered mode exists as the base
retriever (threshold 0.75, no filter) but the Router does not use it;
whenever a non-empty structured filter is supplied, the filtered
retriever performs a `similarity` search carrying that filter and no
threshold; an empty filter dict behaves exactly like no filter; and every
broad-default Router search goes through the filtered retriever, hence
carries no score threshold even when its effective filter is empty. -/
theorem retrieval_modes_amended (tk : Option Int) (flt : MetadataFilter)
    (search : SearchFn) (q : String) (svc : Option String) :
    (get_base_retriever tk).search_type = "similarity_score_threshold" ∧
    (get_base_retriever tk).score_threshold = some (0.75 : ℚ) ∧
    (get_base_retriever tk).filter = none ∧
    (flt ≠ [] →
      (get_filtered_retriever (some flt) tk).search_type = "similarity" ∧
      (get_filtered_retriever (some flt) tk).score_threshold = none ∧
      (get_filtered_retriever (some flt) tk).filter = some flt) ∧
    get_filtered_retriever (some []) tk = get_filtered_retriever none tk ∧
    route_query search q "general_question" svc = search q (broadSpec svc) ∧
    (broadSpec svc).score_threshold = none := by
  refine ⟨rfl, rfl, rfl, ?_, rfl, ?_, rfl⟩
  · intro h
    exact ⟨rfl, rfl, by simp [get_filtered_retriever, h]⟩
  · unfold route_query
    rw [if_neg (by decide), if_neg (by decide), if_neg (by decide)]
    rfl

/-- Claim C8, witness: a non-empty supplied filter is carried verbatim by
the filtered retriever. -/
theorem retrieval_modes_amended_witness :
    (get_filtered_retriever (some [("service", FilterValue.str "trading-db")]) none).filter
      = some [("service", FilterValue.str "trading-db")] :=
  ((retrieval_modes_amended none [("service", FilterValue.str "trading-db")]
    emptySearch "status check" none).2.2.2.1 (by decide)).2.2

/-- Claim C9, counterexample: a supplied per-call `top_k` of `0` does not
take precedence — `top_k or RETRIEVER_TOP_K` treats `0` as falsy, so both
retrievers fall back to the default 5. -/
theorem topk_zero_override_cex :
    (get_filtered_retriever none (some 0)).k ≠ 0 ∧
    (get_filtered_retriever none (some 0)).k = RETRIEVER_TOP_K ∧
    (get_base_retriever (some 0)).k ≠ 0 ∧
    (get_base_retriever (some 0)).k = RETRIEVER_TOP_K := by
  refine ⟨by decide, by decide, by decide, by decide⟩

/-- Claim C9 (amended): `k` equals the default 5 when no per-call `top_k`
is given, equals the supplied `top_k` for every non-zero supplied value,
and a supplied `top_k` of `0` is treated as unspecified and falls back to
the default. -/
theorem topk_default_and_override (mf : Option MetadataFilter) (t : Int) (ht : t ≠ 0) :
    (get_filtered_retriever mf none).k = RETRIEVER_TOP_K ∧
    (get_base_retriever none).k = RETRIEVER_TOP_K ∧
    (get_filtered_retriever mf (some t)).k = t ∧
    (get_base_retriever (some t)).k = t ∧
    (get_filtered_retriever mf (some 0)).k = RETRIEVER_TOP_K ∧
    (get_base_retriever (some 0)).k = RETRIEVER_TOP_K := by
  refine ⟨rfl, rfl, ?_, ?_, rfl, rfl⟩ <;>
    · show pyIntOr (some t) RETRIEVER_TOP_K = t
      simp [pyIntOr, ht]

/-- Claim C9, witness: a non-zero override is honored. -/
theorem topk_default_and_override_witness :
    (get_filtered_retriever none (some 3)).k = 3 :=
  (topk_default_and_override none 3 (by decide)).2.2.1

/-- Claim C10: on a non-empty routed batch, `generate_answer` returns the
generation collaborator's text over the built context together with the
reference ids of the FULL batch; the built context only ever uses the
first `MAX_CONTEXT_DOCS` documents; and there is a batch longer than
`MAX_CONTEXT_DOCS` whose reference ids include a basename absent from the
truncated batch's ids. -/
theorem context_truncation_vs_refs (intent_llm : String → String) (search : SearchFn)
    (rag_llm : String → String → String → String) (q hist : String) (svc : Option String)
    (h : route_query search q (classify_intent (intent_llm q)) svc ≠ []) :
    generate_answer intent_llm search rag_llm q hist svc
      = (rag_llm q
          (build_context (route_query search q (classify_intent (intent_llm q)) svc)) hist,
         extract_reference_ids (route_query search q (classify_intent (intent_llm q)) svc)) ∧
    (∀ ds : List Document, build_context ds = build_context (ds.take MAX_CONTEXT_DOCS)) ∧
    (∃ ds : List Document, MAX_CONTEXT_DOCS < ds.length ∧
      ∃ r ∈ extract_reference_ids ds, r ∉ extract_reference_ids (ds.take MAX_CONTEXT_DOCS)) := by
  refine ⟨?_, ?_, ?_⟩
  · simp only [generate_answer]
    rw [if_neg h]
  · intro ds
    by_cases hds : ds = []
    · subst hds; rfl
    · have htake : ds.take MAX_CONTEXT_DOCS ≠ [] := by
        simp [List.take_eq_nil_iff, hds, MAX_CONTEXT_DOCS]
      unfold build_context
      rw [if_neg hds, if_neg htake, List.take_take, Nat.min_self]
  · exact ⟨sevenDocs, by decide, "a7.txt", by decide, by decide⟩

/-- Claim C10, witness: with seven routed documents the returned reference
ids include all seven basenames, while the context is built from six. -/
theorem context_truncation_vs_refs_witness :
    (generate_answer (fun _ => "log_analysis") (fun _ _ => sevenDocs) (fun _ _ _ => "done")
      "inspect service logs" "" none).2
      = ["a1.txt", "a2.txt", "a3.txt", "a4.txt", "a5.txt", "a6.txt", "a7.txt"] := by
  have h := (context_truncation_vs_refs (fun _ => "log_analysis") (fun _ _ => sevenDocs)
    (fun _ _ _ => "done") "inspect service logs" "" none (by decide)).1
  rw [h]
  decide

end Ops
